import Mathlib

/-!
Shallow embedding of the Dreo Home Assistant integration's device state
synchronization engine (custom_components/dreo): the WebSocket push client
(`websocket.py`), the per-device coordinator setup and push dispatch
(`__init__.py`), and the diagnostics view (`diagnostics.py`).

JSON values are modelled by the inductive `JVal`; Python dictionaries by
association lists over `String` keys; Python truthiness by `pyTruthy`.
Fallible external collaborators (the per-model data processor, network
refresh) are passed in as explicit parameters returning `Except`/`Option`.
-/

namespace Dreo

/-- Model of a decoded JSON value (the result of `json.loads`). Python
`None` is `jnull`; objects are association lists in insertion order. -/
inductive JVal where
  | jnull : JVal
  | jbool : Bool → JVal
  | jnum : Int → JVal
  | jstr : String → JVal
  | jarr : List JVal → JVal
  | jobj : List (String × JVal) → JVal

/-- First-occurrence association-list lookup; models `dict.get(key)` on a
Python dict (whose keys are unique, so first = only occurrence). -/
def assocLookup {α : Type} : List (String × α) → String → Option α
  | [], _ => none
  | (k, v) :: rest, key => if k = key then some v else assocLookup rest key

/-- In-place update of one key, appending when absent; mirrors how a
single `d[k] = v` assignment behaves on an insertion-ordered Python dict. -/
def assocSet {α : Type} : List (String × α) → String → α → List (String × α)
  | [], key, v => [(key, v)]
  | (k, w) :: rest, key, v =>
      if k = key then (key, v) :: rest else (k, w) :: assocSet rest key v

/-- `base.update(upd)` on Python dicts: each key of `upd` is written into
`base` in order (existing keys overwritten in place, new keys appended). -/
def dictUpdate {α : Type} (base upd : List (String × α)) : List (String × α) :=
  upd.foldl (fun acc kv => assocSet acc kv.1 kv.2) base

/-- Python truthiness of a JSON value: `None`, `False`, `0`, `""`, `[]`
and `{}` are falsy, everything else truthy. -/
def pyTruthy : JVal → Bool
  | JVal.jnull => false
  | JVal.jbool b => b
  | JVal.jnum n => n != 0
  | JVal.jstr s => !s.isEmpty
  | JVal.jarr xs => !xs.isEmpty
  | JVal.jobj fs => !fs.isEmpty

/-- Truthiness of `dict.get(key)`: a missing key yields `None`, falsy. -/
def pyTruthyO : Option JVal → Bool
  | none => false
  | some v => pyTruthy v

/-! ## websocket.py constants -/

/-- `PING_INTERVAL = 15` (seconds between keep-alive sends). -/
def PING_INTERVAL : Nat := 15

/-- `PING_MESSAGE = "2"` (the fixed single-character heartbeat frame). -/
def PING_MESSAGE : String := "2"

/-- `RECONNECT_DELAY = 5` (seconds of fixed backoff between attempts). -/
def RECONNECT_DELAY : Nat := 5

/-- `REGION_MAP`: token region suffix → API/WebSocket region slug. -/
def REGION_MAP : List (String × String) :=
  [("NA", "us"), ("US", "us"), ("EU", "eu")]

/-- Python `str.split(sep)` for a one-character separator: always
non-empty, with empty segments around adjacent/leading/trailing
separators (`"".split(":") == [""]`, `":".split(":") == ["", ""]`). -/
def splitOnChar (sep : Char) : List Char → List (List Char)
  | [] => [[]]
  | c :: rest =>
      match splitOnChar sep rest with
      | [] => [[c]]
      | g :: gs => if c = sep then [] :: g :: gs else (c :: g) :: gs

/-- Python `str.upper()` restricted to ASCII case mapping, matching how
the region suffixes in `REGION_MAP` are compared. -/
def pyUpper (s : String) : String :=
  ⟨s.data.map Char.toUpper⟩

/-- `REGION_MAP.get(region.upper(), "us")` — the region-slug resolution
performed both by `async_login_app_api` and by `DreoWebSocket.__init__`. -/
def regionSlug (region : String) : String :=
  (assocLookup REGION_MAP (pyUpper region)).getD "us"

/-- Region derivation in `_async_create_websocket` (__init__.py 159-163):
`region = "NA"`, overridden by `open_token.split(":")[-1]` when the
poll-side token contains a colon. -/
def deriveRegion (openToken : String) : String :=
  if openToken.data.contains ':' then
    ⟨(splitOnChar ':' openToken.data).getLastD []⟩
  else "NA"

/-- The slug of the push endpoint actually used for a poll-side token:
`deriveRegion` composed with the `REGION_MAP` lookup of
`DreoWebSocket.__init__`. -/
def pushRegionSlug (openToken : String) : String :=
  regionSlug (deriveRegion openToken)

/-! ## websocket.py: frame decoding (`DreoWebSocket._process_message`) -/

/-- Observable outcome of `_process_message` on one text frame. -/
inductive ProcResult where
  | dropped : ProcResult
  | dispatched : JVal → List (String × JVal) → ProcResult
  | raised : ProcResult

/-- `DreoWebSocket._process_message` (websocket.py 193-209), applied to the
result of `json.loads` (`none` models a `JSONDecodeError`/`TypeError`,
which the function catches and drops). On a decoded JSON object it reads
`data.get("devicesn")` and `data.get("reported")` and dispatches only when
the identifier is truthy and `reported` is a non-empty dict. On a decoded
non-object (number, string, array, `null`, bool), `data.get` raises an
uncaught `AttributeError` (`raised`), which propagates out of the read
loop in `_connect_and_listen`. -/
def process_message (decoded : Option JVal) : ProcResult :=
  match decoded with
  | none => ProcResult.dropped
  | some (JVal.jobj fields) =>
      match assocLookup fields "devicesn", assocLookup fields "reported" with
      | some sn, some (JVal.jobj rep) =>
          if pyTruthy sn && !rep.isEmpty then ProcResult.dispatched sn rep
          else ProcResult.dropped
      | _, _ => ProcResult.dropped
  | some _ => ProcResult.raised

/-! ## websocket.py: client lifecycle (`DreoWebSocket`) -/

/-- Mutable state of a `DreoWebSocket` instance. `ws`/`session` model the
aiohttp objects as `none` (attribute is `None`) or `some closed` (object
present, with its `closed` flag); `task` is `some cancelled` for the
`_run` task. -/
structure WSState where
  token : String
  region : String
  running : Bool
  ws : Option Bool
  session : Option Bool
  task : Option Bool
  deriving DecidableEq

/-- `DreoWebSocket.__init__` (websocket.py 104-117): stores the token,
resolves the region through `REGION_MAP`, and starts with no socket,
no session, no task, not running. -/
def wsInit (token : String) (region : String) : WSState :=
  { token := token, region := regionSlug region,
    running := false, ws := none, session := none, task := none }

/-- `DreoWebSocket.connected` (websocket.py 119-122):
`self._ws is not None and not self._ws.closed`. -/
def wsConnected (s : WSState) : Bool :=
  match s.ws with
  | none => false
  | some closed => !closed

/-- `DreoWebSocket.stop` (websocket.py 129-137): clear `_running`, close
the socket if present and open, close the session if present and open,
cancel the task if present. Every step is a plain conditional on current
state, so the function is total (raises nothing) from any state. -/
def wsStop (s : WSState) : WSState :=
  let s1 := { s with running := false }
  let s2 := match s1.ws with
    | some false => { s1 with ws := some true }
    | _ => s1
  let s3 := match s2.session with
    | some false => { s2 with session := some true }
    | _ => s2
  match s3.task with
  | some _ => { s3 with task := some true }
  | none => s3

/-! ## websocket.py: reconnect loop (`DreoWebSocket._run`) -/

/-- One observable event of the `_run` loop: a call to
`_connect_and_listen` (an attempt), or an `asyncio.sleep` of the given
number of seconds. -/
inductive REvent where
  | attempt : REvent
  | sleep : Nat → REvent
  deriving DecidableEq

/-- `DreoWebSocket._run` (websocket.py 139-151), unrolled for `fuel`
iterations. `reads j` is the value of `self._running` at its `j`-th read;
each iteration reads it twice: once at the `while` condition and once at
the `if self._running` guard before the backoff sleep. The `try/except
Exception` around `_connect_and_listen` catches every exit (graceful
close, error frame, or exception) identically — the loop body does not
depend on how the attempt ended, so attempt outcomes do not appear. -/
def runTrace (reads : Nat → Bool) : Nat → Nat → List REvent
  | 0, _ => []
  | fuel + 1, i =>
      if reads i then
        REvent.attempt ::
          ((if reads (i + 1) then [REvent.sleep RECONNECT_DELAY] else []) ++
            runTrace reads fuel (i + 2))
      else []

/-- Number of connect attempts in a trace. -/
def countAttempts : List REvent → Nat
  | [] => 0
  | REvent.attempt :: rest => countAttempts rest + 1
  | _ :: rest => countAttempts rest

/-- The trace shape when `_running` stays true: `n` repetitions of
one connect attempt followed by one fixed backoff sleep. -/
def attemptBlocks : Nat → List REvent
  | 0 => []
  | n + 1 => REvent.attempt :: REvent.sleep RECONNECT_DELAY :: attemptBlocks n

/-! ## websocket.py: keep-alive loop (`DreoWebSocket._ping_loop`) -/

/-- Outcome of one `self._ws.send_str(PING_MESSAGE)` call. `connErr`
models a `ConnectionError` (the usual failure of a send on a dead
socket), `cancelled` an `asyncio.CancelledError` delivered at the send or
at the sleep, `otherErr` any other exception. -/
inductive SendRes where
  | ok : SendRes
  | connErr : SendRes
  | cancelled : SendRes
  | otherErr : SendRes
  deriving DecidableEq

/-- How the `_ping_loop` coroutine ends: returning normally (`silent`),
or with an exception escaping the coroutine (`raisedExit`). -/
inductive PingExit where
  | silent : PingExit
  | raisedExit : PingExit
  deriving DecidableEq

/-- `DreoWebSocket._ping_loop` (websocket.py 184-191). `sends` is the
sequence of outcomes of successive `send_str` calls while the socket
stays open; the list ending models the `while` guard seeing the socket
closed. The `except (ConnectionError, asyncio.CancelledError): pass`
handler turns those two into a silent return; any other exception
escapes the coroutine. Returns the exit kind and the number of send
attempts made. -/
def pingLoop : List SendRes → PingExit × Nat
  | [] => (PingExit.silent, 0)
  | r :: rest =>
      match r with
      | SendRes.ok =>
          let (e, n) := pingLoop rest
          (e, n + 1)
      | SendRes.connErr => (PingExit.silent, 1)
      | SendRes.cancelled => (PingExit.silent, 1)
      | SendRes.otherErr => (PingExit.raisedExit, 1)

/-! ## Structural equality on JSON values (Python `==`/dict membership) -/

mutual

/-- Structural equality of JSON values, modelling Python `==` as used by
dict membership tests such as `device_id in coordinators`. -/
def jvalBeq : JVal → JVal → Bool
  | JVal.jnull, JVal.jnull => true
  | JVal.jbool a, JVal.jbool b => a == b
  | JVal.jnum a, JVal.jnum b => a == b
  | JVal.jstr a, JVal.jstr b => a == b
  | JVal.jarr a, JVal.jarr b => jvalListBeq a b
  | JVal.jobj a, JVal.jobj b => jvalObjBeq a b
  | _, _ => false

/-- Elementwise `jvalBeq` on JSON arrays. -/
def jvalListBeq : List JVal → List JVal → Bool
  | [], [] => true
  | x :: xs, y :: ys => jvalBeq x y && jvalListBeq xs ys
  | _, _ => false

/-- Pairwise `jvalBeq` on JSON object fields. -/
def jvalObjBeq : List (String × JVal) → List (String × JVal) → Bool
  | [], [] => true
  | (k, v) :: xs, (k2, v2) :: ys => k == k2 && jvalBeq v v2 && jvalObjBeq xs ys
  | _, _ => false

end

/-- `key in registry` on the Coordinator Registry's key set. -/
def regContains (registry : List JVal) (key : JVal) : Bool :=
  registry.any (fun x => jvalBeq x key)

/-! ## State Coordinator (coordinator.py is not included in src/) -/

/-- A raw or normalized device-state mapping (a Python dict of attribute
name to JSON value, in insertion order). -/
abbrev StateMap := List (String × JVal)

/-- The per-device coordinator state visible to the claims:
`last_raw_state` (the RawStateSnapshot), `data` (the
NormalizedDeviceState held by the DataUpdateCoordinator), and a counter
of change notifications fired to listeners. -/
structure CoordState where
  lastRawState : Option StateMap
  data : Option StateMap
  notifications : Nat

/-- Modelled from the spec:
`DreoDataUpdateCoordinator.handle_websocket_update` (coordinator.py,
which is not included in src/). Spec §4.4 `applyPushUpdate`: merge the
partial update into the stored RawStateSnapshot key-by-key (a missing
snapshot degenerates to the partial keys alone), reprocess through the
data-processor; on success replace the NormalizedDeviceState and notify
listeners; on data-processor failure roll the merge back to the
pre-merge snapshot, drop the update, and raise nothing (logged only). -/
def handle_websocket_update (proc : StateMap → Except Unit StateMap)
    (c : CoordState) (upd : StateMap) : CoordState :=
  let merged := dictUpdate (c.lastRawState.getD []) upd
  match proc merged with
  | Except.ok n =>
      { lastRawState := some merged, data := some n,
        notifications := c.notifications + 1 }
  | Except.error _ => c

/-- Modelled from the spec: the effect of one network poll
(`DreoDataUpdateCoordinator._async_update_data`, coordinator.py, not in
src/). Spec §4.4 `poll()`: fetch a fresh RawStateSnapshot, replace the
stored snapshot wholesale, reprocess, and notify. `outcome = none`
models a failed poll, which leaves the coordinator state as it was. -/
def pollRefresh (outcome : Option (StateMap × StateMap))
    (c : CoordState) : CoordState :=
  match outcome with
  | some (r, n) =>
      { lastRawState := some r, data := some n,
        notifications := c.notifications + 1 }
  | none => c

/-! ## __init__.py: per-device setup (`async_setup_device_coordinator`) -/

/-- The device-dict key holding the model configuration
(`DreoEntityConfigSpec.TOP_CONFIG`, defined in const.py, which is
outside src/). Its literal value does not affect any claim; `"config"`
stands in for it. -/
def TOP_CONFIG : String := "config"

/-- Observable outcome of `async_setup_device_coordinator` for one
device-list entry. `constructed` records whether the
`DreoDataUpdateCoordinator(...)` constructor call on line 125 was
reached; `registered` whether the entry was added to `coordinators`;
`polls` how many network refreshes were issued; `coord` the state of the
created coordinator, if any; `raised` whether an exception escaped. -/
structure SetupResult where
  constructed : Bool
  registered : Bool
  polls : Nat
  coord : Option CoordState
  registryAfter : List JVal
  raised : Bool

/-- `async_setup_device_coordinator` (__init__.py 102-149). The
per-model data processor (resolved inside the coordinator's constructor,
coordinator.py, not in src/) is passed as `dataProc`; `refreshOutcome`
feeds `pollRefresh` for any self-heal or first refresh. Guard order
follows the source: falsy `deviceSn`/`model`/`deviceType` → skip; model
config present but `None` → skip (warning logged); already registered →
skip; constructor runs; missing data processor → skip; truthy embedded
initial state → seed (storing `last_raw_state` first, then processing;
`ValueError`/`KeyError`/`TypeError` fall back to one
`async_request_refresh`); no initial state → one
`async_config_entry_first_refresh`, whose failure raises
`ConfigEntryNotReady` before registration. -/
def async_setup_device_coordinator
    (dataProc : Option (StateMap → JVal → Except Unit StateMap))
    (refreshOutcome : Option (StateMap × StateMap))
    (coordinators : List JVal)
    (device : List (String × JVal)) : SetupResult :=
  let device_model := assocLookup device "model"
  let device_id := assocLookup device "deviceSn"
  let device_type := assocLookup device "deviceType"
  let model_config := (assocLookup device TOP_CONFIG).getD (JVal.jobj [])
  let initial_state := assocLookup device "state"
  if !(pyTruthyO device_id) || !(pyTruthyO device_model)
      || !(pyTruthyO device_type) then
    ⟨false, false, 0, none, coordinators, false⟩
  else match model_config with
  | JVal.jnull => ⟨false, false, 0, none, coordinators, false⟩
  | cfg =>
    let did := device_id.getD JVal.jnull
    if regContains coordinators did then
      ⟨false, false, 0, none, coordinators, false⟩
    else
      match dataProc with
      | none => ⟨true, false, 0, some ⟨none, none, 0⟩, coordinators, false⟩
      | some proc =>
        if pyTruthyO initial_state then
          match initial_state with
          | some (JVal.jobj seed) =>
              match proc seed cfg with
              | Except.ok n =>
                  ⟨true, true, 0, some ⟨some seed, some n, 1⟩,
                    coordinators ++ [did], false⟩
              | Except.error _ =>
                  ⟨true, true, 1,
                    some (pollRefresh refreshOutcome ⟨some seed, none, 0⟩),
                    coordinators ++ [did], false⟩
          | _ =>
              -- dict(initial_state) on a truthy non-mapping raises
              -- TypeError/ValueError, caught by the same handler:
              -- last_raw_state stays unset and one refresh is issued.
              ⟨true, true, 1,
                some (pollRefresh refreshOutcome ⟨none, none, 0⟩),
                coordinators ++ [did], false⟩
        else
          match refreshOutcome with
          | some (r, n) =>
              ⟨true, true, 1, some ⟨some r, some n, 1⟩,
                coordinators ++ [did], false⟩
          | none => ⟨true, false, 1, none, coordinators, true⟩

/-- `on_ws_message` (__init__.py 171-174): `coordinators.get(device_sn)`;
`None` is a silent no-op, otherwise the update is routed to
`handle_websocket_update`. Returns whether the frame was routed. -/
def on_ws_message (registry : List JVal) (device_sn : JVal) : Bool :=
  regContains registry device_sn

/-! ## __init__.py: websocket creation, start, diagnostics -/

/-- Truthiness of `str | None` (both `None` and `""` are falsy). -/
def pyTruthyStr : Option String → Bool
  | none => false
  | some t => !t.isEmpty

/-- Result of `_async_create_websocket`: the client, if one was built,
and whether the `DreoWebSocket(...)` constructor was evaluated at all. -/
structure CreateWSResult where
  websocket : Option WSState
  constructed : Bool

/-- `_async_create_websocket` (__init__.py 152-180): derive the region
from `client.access_token or ""`, attempt the app-api login (its result
is `appToken`), and return `None` without constructing a `DreoWebSocket`
when no token was obtained. -/
def _async_create_websocket (appToken : Option String)
    (accessToken : Option String) : CreateWSResult :=
  let region := deriveRegion (accessToken.getD "")
  if pyTruthyStr appToken then
    ⟨some (wsInit (appToken.getD "") region), true⟩
  else
    ⟨none, false⟩

/-- The runtime data stored on the config entry (`DreoData`,
__init__.py 38-45), restricted to the fields the claims read: the
registry's key set and the websocket. -/
structure DreoData where
  coordinators : List JVal
  websocket : Option WSState

/-- `DreoWebSocket.start` (websocket.py 124-127): set `_running` and
create the `_run` task. -/
def wsStart (s : WSState) : WSState :=
  { s with running := true, task := some false }

/-- The push-related tail of `async_setup_entry` (__init__.py 81-98):
the websocket is created after the coordinators, stored in the runtime
data, and `start()` is called only when one exists. Returns the stored
runtime data and whether `start()` was called. -/
def setupEntryPush (coordinators : List JVal) (appToken : Option String)
    (accessToken : Option String) : DreoData × Bool :=
  let r := _async_create_websocket appToken accessToken
  (⟨coordinators, r.websocket.map wsStart⟩, r.websocket.isSome)

/-- The `"websocket_connected"` entry of
`async_get_config_entry_diagnostics` (diagnostics.py 33-38):
`data.websocket.connected if data.websocket is not None else False`. -/
def diagnosticsWebsocketConnected (d : DreoData) : Bool :=
  match d.websocket with
  | none => false
  | some w => wsConnected w

/-! ## Further definitions used by the statements -/

/-- The dispatch condition of `_process_message` on a decoded JSON
object: a truthy `devicesn` together with a `reported` value that is a
non-empty dict. -/
def goodFrame (fields : List (String × JVal)) : Bool :=
  match assocLookup fields "devicesn", assocLookup fields "reported" with
  | some sn, some (JVal.jobj rep) => pyTruthy sn && !rep.isEmpty
  | _, _ => false

/-- Region resolution as the specification words it: take the
colon-delimited trailing suffix of the poll-side token (the default
region code `"NA"` when it has no colon), compare it case-insensitively
(i.e. after uppercasing) against the enumerated table NA→us, US→us,
EU→eu, and fall back to the baseline slug `"us"` for anything
unrecognized. -/
def specRegionSlug (token : String) : String :=
  let suf := pyUpper (deriveRegion token)
  if suf = "NA" || suf = "US" then "us"
  else if suf = "EU" then "eu"
  else "us"

/-! ## Association-list lemmas -/

theorem assocLookup_eq_none_of_not_mem {α : Type} (m : List (String × α))
    (q : String) (h : q ∉ m.map Prod.fst) : assocLookup m q = none := by
  induction m with
  | nil => rfl
  | cons kv rest ih =>
      obtain ⟨k, v⟩ := kv
      simp only [List.map_cons, List.mem_cons] at h
      push_neg at h
      have hk : ¬ k = q := fun hk => h.1 hk.symm
      simp only [assocLookup, if_neg hk]
      exact ih h.2

theorem assocLookup_assocSet {α : Type} (m : List (String × α))
    (key : String) (v : α) (q : String) :
    assocLookup (assocSet m key v) q =
      if key = q then some v else assocLookup m q := by
  induction m with
  | nil => simp [assocSet, assocLookup]
  | cons kv rest ih =>
      obtain ⟨k, w⟩ := kv
      by_cases hk : k = key
      · subst hk
        by_cases hq : k = q <;> simp [assocSet, assocLookup, hq]
      · by_cases hq : k = q
        · subst hq
          have : key ≠ k := fun h => hk h.symm
          simp [assocSet, assocLookup, hk, this]
        · simp [assocSet, assocLookup, hk, hq, ih]

theorem assocLookup_dictUpdate_of_none {α : Type} (u b : List (String × α))
    (q : String) (h : assocLookup u q = none) :
    assocLookup (dictUpdate b u) q = assocLookup b q := by
  induction u generalizing b with
  | nil => rfl
  | cons kv rest ih =>
      obtain ⟨k, v⟩ := kv
      simp only [assocLookup] at h
      by_cases hk : k = q
      · simp [hk] at h
      · simp only [if_neg hk] at h
        show assocLookup (dictUpdate (assocSet b k v) rest) q = assocLookup b q
        rw [ih (assocSet b k v) h, assocLookup_assocSet, if_neg hk]

theorem assocLookup_dictUpdate_of_some {α : Type} (u b : List (String × α))
    (q : String) (v : α) (hnd : (u.map Prod.fst).Nodup)
    (h : assocLookup u q = some v) :
    assocLookup (dictUpdate b u) q = some v := by
  induction u generalizing b with
  | nil => simp [assocLookup] at h
  | cons kv rest ih =>
      obtain ⟨k, w⟩ := kv
      simp only [List.map_cons, List.nodup_cons] at hnd
      simp only [assocLookup] at h
      by_cases hk : k = q
      · simp only [if_pos hk] at h
        subst hk
        have hrest : assocLookup rest k = none :=
          assocLookup_eq_none_of_not_mem rest k hnd.1
        show assocLookup (dictUpdate (assocSet b k w) rest) k = some v
        rw [assocLookup_dictUpdate_of_none rest (assocSet b k w) k hrest,
          assocLookup_assocSet, if_pos rfl, h]
      · simp only [if_neg hk] at h
        show assocLookup (dictUpdate (assocSet b k w) rest) q = some v
        exact ih (assocSet b k w) hnd.2 h

/-! ## Claim theorems -/

/-- C1: for every State Coordinator holding a RawStateSnapshot and every
partial push update (whose merged snapshot the data-processor accepts),
`handle_websocket_update` merges key-by-key: the stored snapshot becomes
the key-wise merge, the normalized state becomes the processor's output,
every key present in the update reads back its updated value, and every
key absent from the update reads back its prior value. -/
theorem push_update_merges_key_by_key
    (proc : StateMap → Except Unit StateMap) (c : CoordState)
    (upd base n : StateMap)
    (hbase : c.lastRawState = some base)
    (hnd : (upd.map Prod.fst).Nodup)
    (hok : proc (dictUpdate base upd) = Except.ok n) :
    (handle_websocket_update proc c upd).lastRawState
        = some (dictUpdate base upd) ∧
    (handle_websocket_update proc c upd).data = some n ∧
    (∀ k v, assocLookup upd k = some v →
      assocLookup (dictUpdate base upd) k = some v) ∧
    (∀ k, assocLookup upd k = none →
      assocLookup (dictUpdate base upd) k = assocLookup base k) := by
  unfold handle_websocket_update
  rw [hbase]
  simp only [Option.getD_some, hok]
  refine ⟨trivial, trivial, ?_, ?_⟩
  · intro k v hv
    exact assocLookup_dictUpdate_of_some upd base k v hnd hv
  · intro k hnone
    exact assocLookup_dictUpdate_of_none upd base k hnone

/-- Witness for C1, the spec's end-to-end scenario B: snapshot
power=false, mode="auto" merged with power=true yields power=true with
mode="auto" preserved, and the merged snapshot is stored and
reprocessed. -/
theorem push_update_merges_key_by_key_witness :
    (⟨some [("power", JVal.jbool false), ("mode", JVal.jstr "auto")],
        none, 0⟩ : CoordState).lastRawState
      = some [("power", JVal.jbool false), ("mode", JVal.jstr "auto")] ∧
    (([("power", JVal.jbool true)] : StateMap).map Prod.fst).Nodup ∧
    (handle_websocket_update (fun r => Except.ok r)
        ⟨some [("power", JVal.jbool false), ("mode", JVal.jstr "auto")],
          none, 0⟩
        [("power", JVal.jbool true)]).lastRawState
      = some [("power", JVal.jbool true), ("mode", JVal.jstr "auto")] ∧
    (handle_websocket_update (fun r => Except.ok r)
        ⟨some [("power", JVal.jbool false), ("mode", JVal.jstr "auto")],
          none, 0⟩
        [("power", JVal.jbool true)]).data
      = some [("power", JVal.jbool true), ("mode", JVal.jstr "auto")] := by
  have h := push_update_merges_key_by_key (fun r => Except.ok r)
    ⟨some [("power", JVal.jbool false), ("mode", JVal.jstr "auto")], none, 0⟩
    [("power", JVal.jbool true)]
    [("power", JVal.jbool false), ("mode", JVal.jstr "auto")]
    [("power", JVal.jbool true), ("mode", JVal.jstr "auto")]
    rfl (by decide) rfl
  exact ⟨rfl, by decide, h.1, h.2.1⟩

/-- C2: when the data-processor rejects the merged snapshot,
`handle_websocket_update` returns the coordinator state unchanged: the
RawStateSnapshot is bit-for-bit its pre-call value, the normalized state
is untouched, no change notification fires, and (being a total function)
nothing is raised. -/
theorem push_update_rollback_on_processor_failure
    (proc : StateMap → Except Unit StateMap) (c : CoordState)
    (upd : StateMap)
    (herr : proc (dictUpdate (c.lastRawState.getD []) upd)
      = Except.error ()) :
    handle_websocket_update proc c upd = c ∧
    (handle_websocket_update proc c upd).lastRawState = c.lastRawState ∧
    (handle_websocket_update proc c upd).data = c.data ∧
    (handle_websocket_update proc c upd).notifications
      = c.notifications := by
  have h : handle_websocket_update proc c upd = c := by
    simp only [handle_websocket_update, herr]
  exact ⟨h, by rw [h], by rw [h], by rw [h]⟩

/-- Witness for C2: a concrete coordinator, update, and processor that
rejects every input; the call leaves the state intact. -/
theorem push_update_rollback_on_processor_failure_witness :
    ((fun _ => Except.error ()) :
        StateMap → Except Unit StateMap)
      (dictUpdate
        ((⟨some [("mode", JVal.jstr "auto")],
            some [("mode", JVal.jstr "auto")], 2⟩ :
          CoordState).lastRawState.getD [])
        [("power", JVal.jbool true)]) = Except.error () ∧
    handle_websocket_update (fun _ => Except.error ())
        ⟨some [("mode", JVal.jstr "auto")],
          some [("mode", JVal.jstr "auto")], 2⟩
        [("power", JVal.jbool true)]
      = ⟨some [("mode", JVal.jstr "auto")],
          some [("mode", JVal.jstr "auto")], 2⟩ :=
  ⟨rfl,
    (push_update_rollback_on_processor_failure (fun _ => Except.error ())
      ⟨some [("mode", JVal.jstr "auto")],
        some [("mode", JVal.jstr "auto")], 2⟩
      [("power", JVal.jbool true)] rfl).1⟩

/-- C3 counterexample: the inbound frame `5` decodes to a JSON value that
is not an object carrying the required fields, so the claim says it is
dropped without terminating the read loop; but `_process_message` calls
`.get` on the decoded value, which for a non-dict raises an uncaught
`AttributeError` that propagates out of the `async for` read loop in
`_connect_and_listen` (ending that connection; the supervisor then
reconnects). -/
theorem process_message_nonobject_raises :
    process_message (some (JVal.jnum 5)) = ProcResult.raised ∧
    process_message (some (JVal.jarr [JVal.jnum 1])) = ProcResult.raised ∧
    ProcResult.raised ≠ ProcResult.dropped :=
  ⟨rfl, rfl, fun h => ProcResult.noConfusion h⟩

/-- C3 as amended: frames that fail to decode as JSON, and frames that
decode to a JSON object lacking a truthy `devicesn` or a non-empty
`reported` dict, are dropped without invoking the dispatch callback and
without terminating the read loop; only frames decoding to a non-object
JSON value escape this tolerance. -/
theorem process_message_drops_malformed (fields : List (String × JVal))
    (h : goodFrame fields = false) :
    process_message none = ProcResult.dropped ∧
    process_message (some (JVal.jobj fields)) = ProcResult.dropped := by
  refine ⟨rfl, ?_⟩
  unfold goodFrame at h
  cases hd : assocLookup fields "devicesn" with
  | none => simp [process_message, hd]
  | some sn =>
      cases hr : assocLookup fields "reported" with
      | none => simp [process_message, hd, hr]
      | some rv =>
          cases rv with
          | jobj rep =>
              rw [hd, hr] at h
              have h2 : (pyTruthy sn && !rep.isEmpty) = false := h
              simp [process_message, hd, hr]
              intro ht
              rw [ht] at h2
              simpa using h2
          | jnull => simp [process_message, hd, hr]
          | jbool b => simp [process_message, hd, hr]
          | jnum n => simp [process_message, hd, hr]
          | jstr s => simp [process_message, hd, hr]
          | jarr xs => simp [process_message, hd, hr]

/-- Witness for C3 (amended): a frame with a `devicesn` but no `reported`
field is dropped. -/
theorem process_message_drops_malformed_witness :
    goodFrame [("devicesn", JVal.jstr "ABC123")] = false ∧
    process_message (some (JVal.jobj [("devicesn", JVal.jstr "ABC123")]))
      = ProcResult.dropped :=
  ⟨rfl, (process_message_drops_malformed
    [("devicesn", JVal.jstr "ABC123")] rfl).2⟩

/-! ## Reconnect-loop lemmas and C4 -/

theorem runTrace_all_true (reads : Nat → Bool) (fuel : Nat) :
    ∀ i, (∀ j, j < 2 * fuel → reads (i + j) = true) →
      runTrace reads fuel i = attemptBlocks fuel := by
  induction fuel with
  | zero => intro i _; rfl
  | succ n ih =>
      intro i h
      have h0 : reads i = true := by simpa using h 0 (by omega)
      have h1 : reads (i + 1) = true := h 1 (by omega)
      have hrec : runTrace reads n (i + 2) = attemptBlocks n := by
        refine ih (i + 2) (fun j hj => ?_)
        rw [show i + 2 + j = i + (j + 2) by omega]
        exact h (j + 2) (by omega)
      simp [runTrace, h0, h1, hrec, attemptBlocks]

theorem countAttempts_attemptBlocks (n : Nat) :
    countAttempts (attemptBlocks n) = n := by
  induction n with
  | zero => rfl
  | succ k ih => simp [attemptBlocks, countAttempts, ih]

/-- C4: as long as `stop` has not flipped `_running` (the first
`2N + 2` reads all see `true`), the `_run` loop makes exactly `N + 1`
connect attempts, each followed by exactly one fixed backoff sleep of
`RECONNECT_DELAY = 5` seconds before the next; the bound `N` is
arbitrary (no maximum retry count), the trace shape is independent of
how each `_connect_and_listen` call exited (the `except Exception`
handler treats close, error frame, and exception alike), and the loop
body only ends when a read of `_running` returns `false`. -/
theorem reconnect_loop_one_attempt_per_backoff (N : Nat)
    (reads : Nat → Bool)
    (h : (List.range (2 * N + 2)).all reads = true) :
    runTrace reads (N + 1) 0 = attemptBlocks (N + 1) ∧
    countAttempts (runTrace reads (N + 1) 0) = N + 1 ∧
    RECONNECT_DELAY = 5 := by
  have h' : ∀ j, j < 2 * (N + 1) → reads (0 + j) = true := by
    intro j hj
    have hm : j ∈ List.range (2 * N + 2) := List.mem_range.mpr (by omega)
    have := List.all_eq_true.mp h j hm
    simpa using this
  have ht := runTrace_all_true reads (N + 1) 0 h'
  exact ⟨ht, by rw [ht]; exact countAttempts_attemptBlocks (N + 1), rfl⟩

/-- Witness for C4: with `_running` held true, two consecutive failures
still give a third attempt (`N = 2` failures → 3 attempts), with one
5-second sleep between consecutive attempts. -/
theorem reconnect_loop_one_attempt_per_backoff_witness :
    (List.range 6).all (fun _ => true) = true ∧
    runTrace (fun _ => true) 3 0 = attemptBlocks 3 ∧
    countAttempts (runTrace (fun _ => true) 3 0) = 3 ∧
    RECONNECT_DELAY = 5 := by
  have h := reconnect_loop_one_attempt_per_backoff 2 (fun _ => true)
    (by decide)
  exact ⟨by decide, h.1, h.2.1, h.2.2⟩

/-- C7: `stop()` is idempotent and total: a second call changes nothing
further; after any call `_running` is false, the socket and session are
closed exactly when they existed, the task is cancelled exactly when it
existed; on a client that never connected (`wsInit`) it only clears
`_running`; and with `_running` false the `_run` loop produces no
further connect attempt from any iteration budget. -/
theorem stop_idempotent_and_safe (s : WSState) (tok reg : String)
    (fuel i : Nat) :
    wsStop (wsStop s) = wsStop s ∧
    (wsStop s).running = false ∧
    (wsStop s).ws = s.ws.map (fun _ => true) ∧
    (wsStop s).session = s.session.map (fun _ => true) ∧
    (wsStop s).task = s.task.map (fun _ => true) ∧
    wsStop (wsInit tok reg) = { wsInit tok reg with running := false } ∧
    runTrace (fun _ => (wsStop s).running) fuel i = [] := by
  obtain ⟨t, r, run, w, sess, task⟩ := s
  rcases w with _ | (_ | _) <;> rcases sess with _ | (_ | _) <;>
    rcases task with _ | (_ | _) <;>
    refine ⟨rfl, rfl, rfl, rfl, rfl, rfl, ?_⟩ <;>
    cases fuel <;> simp [runTrace, wsStop]

/-- C8 counterexample: a keep-alive send that fails with
`ConnectionError` (the usual socket-level send failure) is caught by
`except (ConnectionError, asyncio.CancelledError): pass`, so
`_ping_loop` returns silently — the exception does not propagate to the
owning session's teardown, contrary to the claim. -/
theorem ping_send_failure_is_silent :
    pingLoop [SendRes.connErr] = (PingExit.silent, 1) ∧
    PingExit.silent ≠ PingExit.raisedExit :=
  ⟨rfl, by decide⟩

/-- C8 as amended: a keep-alive send failure ends the loop immediately
with no retry (exactly one send attempt regardless of what would have
followed); a `ConnectionError` is swallowed like cancellation, ending
the driver silently, and only a non-`ConnectionError` exception escapes
the `_ping_loop` coroutine; a closed socket also ends the loop
silently. -/
theorem ping_loop_send_failure_not_retried (rest : List SendRes) :
    pingLoop (SendRes.connErr :: rest) = (PingExit.silent, 1) ∧
    pingLoop (SendRes.cancelled :: rest) = (PingExit.silent, 1) ∧
    pingLoop (SendRes.otherErr :: rest) = (PingExit.raisedExit, 1) ∧
    pingLoop [] = (PingExit.silent, 0) ∧
    PING_INTERVAL = 15 :=
  ⟨rfl, rfl, rfl, rfl, rfl⟩

/-! ## Region resolution (C9) -/

theorem regionSlug_lookup_spec (x : String) :
    (assocLookup REGION_MAP x).getD "us" =
      if x = "NA" || x = "US" then "us"
      else if x = "EU" then "eu" else "us" := by
  by_cases h1 : x = "NA"
  · subst h1; decide
  · by_cases h2 : x = "US"
    · subst h2; decide
    · by_cases h3 : x = "EU"
      · subst h3; decide
      · simp only [REGION_MAP, assocLookup]
        rw [if_neg (fun e => h1 e.symm), if_neg (fun e => h2 e.symm),
          if_neg (fun e => h3 e.symm)]
        simp [h1, h2, h3]

/-- C9: for every poll-side token, the push region slug computed by the
code (trailing colon-suffix, `"NA"` default, `.upper()` then
`REGION_MAP` lookup with `"us"` fallback) equals the claim's reading of
it (`specRegionSlug`: the same trailing suffix mapped case-insensitively
through NA→us, US→us, EU→eu with every unrecognized suffix falling back
to `"us"`); and a token without a colon uses the default region code
`"NA"`. -/
theorem region_resolution_matches_spec (token : String) :
    pushRegionSlug token = specRegionSlug token ∧
    (token.data.contains ':' = false → deriveRegion token = "NA") := by
  constructor
  · show (assocLookup REGION_MAP (pyUpper (deriveRegion token))).getD "us"
      = specRegionSlug token
    rw [regionSlug_lookup_spec (pyUpper (deriveRegion token))]
    rfl
  · intro h
    unfold deriveRegion
    rw [h]
    rfl

/-- Witness for C9: a colon-free token resolves to the default `"NA"`
(hence slug `"us"`); lower-case `"eu"` and unrecognized `"zz"` suffixes
agree with the spec-side mapping (giving `"eu"` and `"us"`). -/
theorem region_resolution_matches_spec_witness :
    ("tok".data.contains ':' = false) ∧
    deriveRegion "tok" = "NA" ∧
    pushRegionSlug "tok:eu" = specRegionSlug "tok:eu" ∧
    pushRegionSlug "tok:eu" = "eu" ∧
    pushRegionSlug "a:b:zz" = specRegionSlug "a:b:zz" ∧
    pushRegionSlug "a:b:zz" = "us" := by
  refine ⟨by decide, ?_, ?_, by decide, ?_, by decide⟩
  · exact (region_resolution_matches_spec "tok").2 (by decide)
  · exact (region_resolution_matches_spec "tok:eu").1
  · exact (region_resolution_matches_spec "a:b:zz").1

/-- C6: when the app-api login fails or returns no token (`None` or an
empty string), `_async_create_websocket` returns `None` without
constructing a `DreoWebSocket`; the setup stores `websocket = None` and
never calls `start()`; the coordinators stored in the runtime data are
the ones built before the websocket step, unaffected; and diagnostics
reports `websocket_connected = False` for the stored runtime data. -/
theorem push_auth_failure_disables_push (coords : List JVal)
    (appToken accessToken : Option String)
    (h : pyTruthyStr appToken = false) :
    (_async_create_websocket appToken accessToken).websocket = none ∧
    (_async_create_websocket appToken accessToken).constructed = false ∧
    (setupEntryPush coords appToken accessToken).1.websocket = none ∧
    (setupEntryPush coords appToken accessToken).2 = false ∧
    diagnosticsWebsocketConnected
        (setupEntryPush coords appToken accessToken).1 = false ∧
    (setupEntryPush coords appToken accessToken).1.coordinators
      = coords := by
  have hw : _async_create_websocket appToken accessToken
      = ⟨none, false⟩ := by
    simp [_async_create_websocket, h]
  refine ⟨by rw [hw], by rw [hw], ?_, ?_, ?_, ?_⟩ <;>
    simp [setupEntryPush, hw, diagnosticsWebsocketConnected]

/-- Witness for C6: app-api login returned no token at all. -/
theorem push_auth_failure_disables_push_witness :
    pyTruthyStr none = false ∧
    (_async_create_websocket none (some "abc:EU")).websocket = none ∧
    (_async_create_websocket none (some "abc:EU")).constructed = false ∧
    (setupEntryPush [JVal.jstr "dev1"] none (some "abc:EU")).2 = false ∧
    diagnosticsWebsocketConnected
        (setupEntryPush [JVal.jstr "dev1"] none (some "abc:EU")).1
      = false ∧
    (setupEntryPush [JVal.jstr "dev1"] none (some "abc:EU")).1.coordinators
      = [JVal.jstr "dev1"] := by
  have h := push_auth_failure_disables_push [JVal.jstr "dev1"] none
    (some "abc:EU") rfl
  exact ⟨rfl, h.1, h.2.1, h.2.2.2.1, h.2.2.2.2.1, h.2.2.2.2.2⟩

/-! ## Device seeding (C5) and silent skipping (C10) -/

/-- C5: for a device-list entry that passes the validity guards, has a
data processor, and carries a truthy embedded initial state: when the
data-processor accepts the seed, the coordinator is registered with the
seed as its raw snapshot and the processed output as its initial
normalized state, with zero network polls; when the data-processor
rejects the seed, exactly one network poll is issued (and nothing is
raised), the normalized state is never set from the seed, and a
successful self-heal poll replaces the seed wholesale. -/
theorem seed_from_device_list (proc : StateMap → JVal → Except Unit StateMap)
    (ro : Option (StateMap × StateMap))
    (coords : List JVal) (device : List (String × JVal))
    (did dm dt cfg : JVal) (seed : StateMap)
    (hsn : assocLookup device "deviceSn" = some did)
    (htsn : pyTruthy did = true)
    (hm : assocLookup device "model" = some dm)
    (htm : pyTruthy dm = true)
    (hty : assocLookup device "deviceType" = some dt)
    (htt : pyTruthy dt = true)
    (hcfg : (assocLookup device TOP_CONFIG).getD (JVal.jobj []) = cfg)
    (hnull : cfg ≠ JVal.jnull)
    (hreg : regContains coords did = false)
    (hst : assocLookup device "state" = some (JVal.jobj seed))
    (hne : seed.isEmpty = false) :
    (∀ n, proc seed cfg = Except.ok n →
      async_setup_device_coordinator (some proc) ro coords device
        = ⟨true, true, 0, some ⟨some seed, some n, 1⟩,
            coords ++ [did], false⟩) ∧
    (proc seed cfg = Except.error () →
      (async_setup_device_coordinator (some proc) ro coords device).polls
          = 1 ∧
      (async_setup_device_coordinator (some proc) ro coords device).coord
          = some (pollRefresh ro ⟨some seed, none, 0⟩) ∧
      (async_setup_device_coordinator (some proc) ro coords device).raised
          = false ∧
      (∀ r n2, ro = some (r, n2) →
        (async_setup_device_coordinator (some proc) ro coords device).coord
          = some ⟨some r, some n2, 1⟩)) := by
  have hred : async_setup_device_coordinator (some proc) ro coords device
      = match proc seed cfg with
        | Except.ok n =>
            ⟨true, true, 0, some ⟨some seed, some n, 1⟩,
              coords ++ [did], false⟩
        | Except.error _ =>
            ⟨true, true, 1, some (pollRefresh ro ⟨some seed, none, 0⟩),
              coords ++ [did], false⟩ := by
    have t4 : pyTruthy (JVal.jobj seed) = true := by
      simp [pyTruthy, hne]
    cases cfg with
    | jnull => exact absurd rfl hnull
    | jbool b =>
        simp [async_setup_device_coordinator, hsn, hm, hty, hst, hcfg,
          htsn, htm, htt, t4, hreg, pyTruthyO]
    | jnum n =>
        simp [async_setup_device_coordinator, hsn, hm, hty, hst, hcfg,
          htsn, htm, htt, t4, hreg, pyTruthyO]
    | jstr s =>
        simp [async_setup_device_coordinator, hsn, hm, hty, hst, hcfg,
          htsn, htm, htt, t4, hreg, pyTruthyO]
    | jarr xs =>
        simp [async_setup_device_coordinator, hsn, hm, hty, hst, hcfg,
          htsn, htm, htt, t4, hreg, pyTruthyO]
    | jobj fs =>
        simp [async_setup_device_coordinator, hsn, hm, hty, hst, hcfg,
          htsn, htm, htt, t4, hreg, pyTruthyO]
  constructor
  · intro n hok
    rw [hred, hok]
  · intro herr
    rw [hred, herr]
    refine ⟨rfl, rfl, rfl, ?_⟩
    intro r n2 hro
    rw [hro]
    rfl

/-- Witness for C5, the spec's end-to-end scenario A: a device with an
embedded initial state is seeded with zero polls and its normalized
state immediately reflects the processed seed. -/
theorem seed_from_device_list_witness :
    assocLookup
        [("deviceSn", JVal.jstr "D1"), ("model", JVal.jstr "HAF001"),
          ("deviceType", JVal.jstr "fan"),
          ("state", JVal.jobj [("power", JVal.jbool true)])]
        "deviceSn" = some (JVal.jstr "D1") ∧
    pyTruthy (JVal.jstr "D1") = true ∧
    async_setup_device_coordinator
        (some (fun r _ => Except.ok r)) none []
        [("deviceSn", JVal.jstr "D1"), ("model", JVal.jstr "HAF001"),
          ("deviceType", JVal.jstr "fan"),
          ("state", JVal.jobj [("power", JVal.jbool true)])]
      = ⟨true, true, 0,
          some ⟨some [("power", JVal.jbool true)],
            some [("power", JVal.jbool true)], 1⟩,
          [JVal.jstr "D1"], false⟩ := by
  have h := seed_from_device_list (fun r _ => Except.ok r) none []
    [("deviceSn", JVal.jstr "D1"), ("model", JVal.jstr "HAF001"),
      ("deviceType", JVal.jstr "fan"),
      ("state", JVal.jobj [("power", JVal.jbool true)])]
    (JVal.jstr "D1") (JVal.jstr "HAF001") (JVal.jstr "fan")
    (JVal.jobj []) [("power", JVal.jbool true)]
    rfl rfl rfl rfl rfl rfl rfl (fun hh => JVal.noConfusion hh) rfl rfl rfl
  exact ⟨rfl, rfl, h.1 [("power", JVal.jbool true)] rfl⟩

/-- C10 counterexample: for a device-list entry that passes the field
guards but has no data processor available, the claim says no
coordinator is created for it; but `async_setup_device_coordinator`
evaluates the `DreoDataUpdateCoordinator(...)` constructor on line 125
before testing `coordinator.data_processor is None` on line 129, so a
coordinator object is constructed (and then discarded without being
registered). -/
theorem setup_no_processor_constructs_coordinator :
    (async_setup_device_coordinator none none []
        [("deviceSn", JVal.jstr "X"), ("model", JVal.jstr "M"),
          ("deviceType", JVal.jstr "T")]).constructed = true ∧
    (async_setup_device_coordinator none none []
        [("deviceSn", JVal.jstr "X"), ("model", JVal.jstr "M"),
          ("deviceType", JVal.jstr "T")]).registered = false :=
  ⟨rfl, rfl⟩

/-- C10 as amended: every device-list entry lacking a truthy `deviceSn`,
`model`, or `deviceType`, or whose model config is `None`, or for which
no data processor is available, is skipped without being registered (in
the no-data-processor case a coordinator object is constructed but
discarded): the registry is unchanged, no poll is issued, no error is
raised, and a later push frame for an identifier absent from the
registry is not routed to any coordinator. -/
theorem setup_skips_invalid_device_silently
    (dataProc : Option (StateMap → JVal → Except Unit StateMap))
    (ro : Option (StateMap × StateMap))
    (coords : List JVal) (device : List (String × JVal)) (sn : JVal)
    (h : (!(pyTruthyO (assocLookup device "deviceSn"))
          || !(pyTruthyO (assocLookup device "model"))
          || !(pyTruthyO (assocLookup device "deviceType"))) = true
        ∨ (assocLookup device TOP_CONFIG).getD (JVal.jobj []) = JVal.jnull
        ∨ dataProc = none)
    (hsn : regContains coords sn = false) :
    (async_setup_device_coordinator dataProc ro coords device).registered
        = false ∧
    (async_setup_device_coordinator dataProc ro coords device).registryAfter
        = coords ∧
    (async_setup_device_coordinator dataProc ro coords device).polls = 0 ∧
    (async_setup_device_coordinator dataProc ro coords device).raised
        = false ∧
    on_ws_message
        (async_setup_device_coordinator dataProc ro coords device).registryAfter
        sn = false := by
  have hbase :
      (async_setup_device_coordinator dataProc ro coords device).registered
          = false ∧
      (async_setup_device_coordinator dataProc ro coords device).registryAfter
          = coords ∧
      (async_setup_device_coordinator dataProc ro coords device).polls = 0 ∧
      (async_setup_device_coordinator dataProc ro coords device).raised
          = false := by
    by_cases hA : (!(pyTruthyO (assocLookup device "deviceSn"))
        || !(pyTruthyO (assocLookup device "model"))
        || !(pyTruthyO (assocLookup device "deviceType"))) = true
    · simp [async_setup_device_coordinator, hA]
    · have hA' : (!(pyTruthyO (assocLookup device "deviceSn"))
          || !(pyTruthyO (assocLookup device "model"))
          || !(pyTruthyO (assocLookup device "deviceType"))) = false := by
        simpa using hA
      rcases h with h | h | h
      · exact absurd h hA
      · simp [async_setup_device_coordinator, hA', h]
      · subst h
        cases hcfg : (assocLookup device TOP_CONFIG).getD (JVal.jobj []) <;>
          cases hr : regContains coords
            ((assocLookup device "deviceSn").getD JVal.jnull) <;>
          simp [async_setup_device_coordinator, hA', hcfg, hr]
  refine ⟨hbase.1, hbase.2.1, hbase.2.2.1, hbase.2.2.2, ?_⟩
  rw [hbase.2.1]
  exact hsn

/-- Witness for C10 (amended): a device with valid identity fields but
no available data processor is not registered, and a push frame for its
identifier finds no coordinator. -/
theorem setup_skips_invalid_device_silently_witness :
    regContains [] (JVal.jstr "X") = false ∧
    (async_setup_device_coordinator none none []
        [("deviceSn", JVal.jstr "X"), ("model", JVal.jstr "M"),
          ("deviceType", JVal.jstr "T")]).registered = false ∧
    (async_setup_device_coordinator none none []
        [("deviceSn", JVal.jstr "X"), ("model", JVal.jstr "M"),
          ("deviceType", JVal.jstr "T")]).registryAfter = [] ∧
    (async_setup_device_coordinator none none []
        [("deviceSn", JVal.jstr "X"), ("model", JVal.jstr "M"),
          ("deviceType", JVal.jstr "T")]).polls = 0 ∧
    on_ws_message [] (JVal.jstr "X") = false := by
  have h := setup_skips_invalid_device_silently none none []
    [("deviceSn", JVal.jstr "X"), ("model", JVal.jstr "M"),
      ("deviceType", JVal.jstr "T")]
    (JVal.jstr "X") (Or.inr (Or.inr rfl)) rfl
  refine ⟨rfl, h.1, h.2.1, h.2.2.1, ?_⟩
  have := h.2.2.2.2
  rwa [h.2.1] at this

end Dreo
